import Mathlib

/-!
Shallow embedding of the `codemapper` test fixtures and verification of the
spec's claims about them.

The repository holds two independent Python modules:
- `src/test_files/sample.py` (Module A): a free function `simple_function`,
  a class `Calculator` (the spec's "NamedCalculator") holding a `name` and
  exposing `add`/`subtract` on explicit parameters, and a subclass
  `ScientificCalculator` adding `power`.
- `src/test_files/test.py` (Module B): a class `Calculator` (the spec's
  "AccumulatorCalculator") holding a running `value` mutated by
  `add`/`subtract`, plus free functions `standalone_function` and
  `another_function`.

Methods are embedded in state-passing style: a Python method on `self`
becomes a Lean function taking the instance and returning the (possibly
updated) instance together with the Python return value, so that absence of
mutation is a provable statement rather than a modelling artefact. Numbers
are embedded as `Int`; the exponent of `power` is a `Nat`, matching the
spec's restriction to non-negative integer exponents.
-/

namespace Sample

/-- Module A `Calculator` ("NamedCalculator"): its only attribute is `name`,
set by `__init__`. -/
structure Calculator where
  name : String
deriving DecidableEq, Repr

/-- Embeds `Calculator.__init__(self, name): self.name = name`. -/
def Calculator.init (name : String) : Calculator :=
  { name := name }

/-- Embeds `Calculator.add(self, a, b): return a + b`. The body contains no
assignment to `self`, so the instance component is returned unchanged. -/
def Calculator.add (c : Calculator) (a b : Int) : Calculator × Int :=
  (c, a + b)

/-- Embeds `Calculator.subtract(self, a, b): return a - b`. The body contains
no assignment to `self`, so the instance component is returned unchanged. -/
def Calculator.subtract (c : Calculator) (a b : Int) : Calculator × Int :=
  (c, a - b)

/-- Module A `ScientificCalculator(Calculator)`: the class body adds no
attribute, only the method `power`. -/
structure ScientificCalculator extends Calculator
deriving DecidableEq, Repr

/-- Python's `base ** exp` on an integer base and a non-negative integer
exponent: iterated multiplication. -/
def pyPow (base : Int) : Nat → Int
  | 0 => 1
  | n + 1 => pyPow base n * base

/-- Embeds `ScientificCalculator.power(self, base, exp): return base ** exp`.
No assignment to `self`, so the instance component is returned unchanged. -/
def ScientificCalculator.power (c : ScientificCalculator) (base : Int) (exp : Nat) :
    ScientificCalculator × Int :=
  (c, pyPow base exp)

/-- The `add` method inherited by `ScientificCalculator`: Python resolves it
to `Calculator.add` applied to the instance. -/
def ScientificCalculator.add (c : ScientificCalculator) (a b : Int) :
    ScientificCalculator × Int :=
  ({ toCalculator := (c.toCalculator.add a b).1 }, (c.toCalculator.add a b).2)

/-- The `subtract` method inherited by `ScientificCalculator`: Python resolves
it to `Calculator.subtract` applied to the instance. -/
def ScientificCalculator.subtract (c : ScientificCalculator) (a b : Int) :
    ScientificCalculator × Int :=
  ({ toCalculator := (c.toCalculator.subtract a b).1 }, (c.toCalculator.subtract a b).2)

/-- Embeds `simple_function(x, y): return x + y`. -/
def simple_function (x y : Int) : Int :=
  x + y

end Sample

namespace Test

/-- Module B `Calculator` ("AccumulatorCalculator"): its only attribute is the
running `value`. -/
structure Calculator where
  value : Int
deriving DecidableEq, Repr

/-- Embeds `Calculator.__init__(self): self.value = 0`. -/
def Calculator.init : Calculator :=
  { value := 0 }

/-- Embeds `Calculator.add(self, x): self.value += x; return self.value`. -/
def Calculator.add (c : Calculator) (x : Int) : Calculator × Int :=
  ({ value := c.value + x }, c.value + x)

/-- Embeds `Calculator.subtract(self, x): self.value -= x; return self.value`. -/
def Calculator.subtract (c : Calculator) (x : Int) : Calculator × Int :=
  ({ value := c.value - x }, c.value - x)

/-- Embeds `standalone_function(a, b): return a + b`. -/
def standalone_function (a b : Int) : Int :=
  a + b

/-- Embeds `another_function(): pass` — a Python function whose body is
`pass` returns `None` and touches no state; its embedding is the constant
unit value. -/
def another_function : Unit :=
  ()

end Test

/-- Iterated multiplication agrees with the monoid power on `Int`. -/
theorem Sample.pyPow_eq_pow (base : Int) (n : Nat) : pyPow base n = base ^ n := by
  induction n with
  | zero => rfl
  | succ n ih => rw [pyPow, ih, pow_succ]

/-- Claim C1: for all numbers `a`, `b` and every `Calculator` instance `c` of
Module A, `add` returns `a + b`, `subtract` returns `a - b`, and neither call
changes the instance. -/
theorem C1_named_add_subtract (c : Sample.Calculator) (a b : Int) :
    c.add a b = (c, a + b) ∧ c.subtract a b = (c, a - b) :=
  ⟨rfl, rfl⟩

/-- Claim C2: for every `AccumulatorCalculator` state `c` and number `x`,
`add x` sets `value` to the old value plus `x` and returns the new value, and
`subtract x` sets `value` to the old value minus `x` and returns the new
value. -/
theorem C2_accumulator_add_subtract (c : Test.Calculator) (x : Int) :
    (c.add x).1.value = c.value + x ∧ (c.add x).2 = (c.add x).1.value ∧
    (c.subtract x).1.value = c.value - x ∧ (c.subtract x).2 = (c.subtract x).1.value :=
  ⟨rfl, rfl, rfl, rfl⟩

/-- Claim C3: for every `ScientificCalculator` instance `c`, number `base`
and non-negative integer `exp`, `power base exp` returns `base ^ exp` (and
leaves the instance unchanged). -/
theorem C3_power_correct (c : Sample.ScientificCalculator) (base : Int) (exp : Nat) :
    (c.power base exp).2 = base ^ exp ∧ (c.power base exp).1 = c :=
  ⟨Sample.pyPow_eq_pow base exp, rfl⟩

/-- Claim C4: the `AccumulatorCalculator` constructor sets `value` to 0. -/
theorem C4_init_zero : Test.Calculator.init.value = 0 :=
  rfl

/-- Claim C5: on a fresh `AccumulatorCalculator` the value is 0; `add 5`
makes the value 5 and returns 5; the subsequent `subtract 2` makes the value
3 and returns 3. -/
theorem C5_scenario :
    Test.Calculator.init.value = 0 ∧
    (Test.Calculator.init.add 5).2 = 5 ∧
    (Test.Calculator.init.add 5).1.value = 5 ∧
    ((Test.Calculator.init.add 5).1.subtract 2).2 = 3 ∧
    ((Test.Calculator.init.add 5).1.subtract 2).1.value = 3 := by
  refine ⟨rfl, rfl, rfl, ?_, ?_⟩ <;> decide

/-- Claim C6: `simple_function x y = x + y`, `standalone_function a b = a + b`,
and both return 5 on the inputs `(2, 3)`. -/
theorem C6_free_functions (x y a b : Int) :
    Sample.simple_function x y = x + y ∧
    Test.standalone_function a b = a + b ∧
    Sample.simple_function 2 3 = 5 ∧
    Test.standalone_function 2 3 = 5 :=
  ⟨rfl, rfl, rfl, rfl⟩

/-- Claim C7: `another_function` returns no usable value (only the unit
value) and, taking no state and returning none, changes no state. -/
theorem C7_another_function_noop : Test.another_function = () :=
  rfl

/-- Claim C8: the `name` attribute of a Module A `Calculator` is the one
given at construction and is not changed by `add`, `subtract`, or
`ScientificCalculator.power`. -/
theorem C8_name_immutable (s : String) (c : Sample.Calculator)
    (sc : Sample.ScientificCalculator) (a b base : Int) (exp : Nat) :
    (Sample.Calculator.init s).name = s ∧
    (c.add a b).1.name = c.name ∧
    (c.subtract a b).1.name = c.name ∧
    (sc.add a b).1.name = sc.name ∧
    (sc.subtract a b).1.name = sc.name ∧
    (sc.power base exp).1.name = sc.name :=
  ⟨rfl, rfl, rfl, rfl, rfl, rfl⟩

/-- Claim C9: a `ScientificCalculator` exposes `add`, `subtract` and `power`;
it adds no attribute beyond the base class (two instances with equal base
parts are equal); its inherited `add` and `subtract` return exactly what the
base class's methods return and update the instance exactly as the base
class's methods do, on all inputs; and `power 2 10 = 1024`. -/
theorem C9_inheritance (sc : Sample.ScientificCalculator) (a b : Int) :
    (∀ s t : Sample.ScientificCalculator, s.toCalculator = t.toCalculator → s = t) ∧
    (sc.add a b).2 = (sc.toCalculator.add a b).2 ∧
    (sc.add a b).1.toCalculator = (sc.toCalculator.add a b).1 ∧
    (sc.subtract a b).2 = (sc.toCalculator.subtract a b).2 ∧
    (sc.subtract a b).1.toCalculator = (sc.toCalculator.subtract a b).1 ∧
    (sc.power 2 10).2 = 1024 := by
  refine ⟨?_, rfl, rfl, rfl, rfl, ?_⟩
  · intro s t h
    cases s; cases t; cases h; rfl
  · show Sample.pyPow 2 10 = 1024
    decide

/-- Claim C10: for every `AccumulatorCalculator` state `c` and number `x`,
`add x` followed by `subtract x` restores the original value, and
`subtract x` coincides with `add (-x)` in both effect and return value. -/
theorem C10_add_subtract_inverse (c : Test.Calculator) (x : Int) :
    ((c.add x).1.subtract x).1.value = c.value ∧
    c.subtract x = c.add (-x) := by
  constructor
  · show c.value + x - x = c.value
    omega
  · simp [Test.Calculator.subtract, Test.Calculator.add, Int.sub_eq_add_neg]
